import Mathlib

/-!
A shallow embedding of the ownership-management primitives of `src/memory.h`:
`MyUniquePtr` (scalar and array specializations), `ControlBlock`,
`MySharedPtr`, and `MyWeakPtr`.

Modelling conventions:
* Raw pointers are `Option Nat` (`none` is `nullptr`; a `some r` is the
  address/identity of a resource).
* `size_t` counters are natural numbers with explicit wrap-around at `2 ^ 64`
  (`incWrap` / `decWrap`), matching unsigned increment and decrement.
* Heap-resident control blocks live in a `World`: a list of blocks addressed
  by allocation index, plus a log of every deletion-policy invocation
  (the raw-pointer argument each call received).  A block on which
  `delete this` has run stays in the list with `alive := false`.
* An operation whose C++ body dereferences a null `ControlBlock*` or touches
  an already-freed block returns `none` (undefined behavior); well-defined
  executions return `some`.
* A deletion policy value is modelled as a `Nat` (`0` is the
  default-constructed policy); what matters to the claims is only whether the
  stored policy value is transferred and when it is invoked.
-/

/-- The modulus of `size_t` arithmetic, `2 ^ 64`. -/
def SIZE_WRAP : Nat := 18446744073709551616

/-- Unsigned `size_t` increment with wrap-around. -/
def incWrap (n : Nat) : Nat := (n + 1) % SIZE_WRAP

/-- Unsigned `size_t` decrement with wrap-around (`0 - 1 = 2 ^ 64 - 1`). -/
def decWrap (n : Nat) : Nat := (n + (SIZE_WRAP - 1)) % SIZE_WRAP

/-- `ControlBlock<T, Deleter>` (src/memory.h:194-220): `strong_ref` and
`weak_ref` counters.  `alive = false` records that `delete this` has run. -/
structure ControlBlock where
  alive : Bool
  strong_ref : Nat
  weak_ref : Nat
deriving DecidableEq

/-- `ControlBlock() : strong_ref(1), weak_ref(0)`. -/
def ControlBlock.init : ControlBlock := ⟨true, 1, 0⟩

/-- `incrementStrongRef(): strong_ref++`. -/
def ControlBlock.incrementStrongRef (c : ControlBlock) : ControlBlock :=
  { c with strong_ref := incWrap c.strong_ref }

/-- `decrementStrongRef(): strong_ref--; if (strong_ref == 0 && weak_ref == 0) delete this;`. -/
def ControlBlock.decrementStrongRef (c : ControlBlock) : ControlBlock :=
  let s := decWrap c.strong_ref
  if s = 0 ∧ c.weak_ref = 0 then ⟨false, s, c.weak_ref⟩
  else { c with strong_ref := s }

/-- `incrementWeakRef(): weak_ref++`. -/
def ControlBlock.incrementWeakRef (c : ControlBlock) : ControlBlock :=
  { c with weak_ref := incWrap c.weak_ref }

/-- `decrementWeakRef(): weak_ref--; if (strong_ref == 0 && weak_ref == 0) delete this;`. -/
def ControlBlock.decrementWeakRef (c : ControlBlock) : ControlBlock :=
  let wk := decWrap c.weak_ref
  if c.strong_ref = 0 ∧ wk = 0 then ⟨false, c.strong_ref, wk⟩
  else { c with weak_ref := wk }

/-- The heap of control blocks (addressed by allocation index) together with
the log of deletion-policy invocations: each entry is the raw-pointer
argument passed to `cb->getDeleter()(ptr)`. -/
structure World where
  cbs : List ControlBlock
  deleterFired : List (Option Nat)
deriving DecidableEq

/-- Read the control block at address `i` (`none` when no block was ever
allocated there). -/
def World.get (w : World) (i : Nat) : Option ControlBlock := w.cbs.get? i

/-- Overwrite the control block at address `i`. -/
def World.set (w : World) (i : Nat) (c : ControlBlock) : World :=
  { w with cbs := w.cbs.set i c }

/-- `new ControlBlock(...)`: append a fresh block, returning its address. -/
def World.alloc (w : World) (c : ControlBlock) : World × Nat :=
  ({ w with cbs := w.cbs ++ [c] }, w.cbs.length)

/-- The empty heap. -/
def World.empty : World := ⟨[], []⟩

/-- `MySharedPtr<T, Deleter>` (src/memory.h:223-312): a raw pointer `ptr` and
a `ControlBlock*` field `cb` (`none` is a null control-block pointer). -/
structure MySharedPtr where
  ptr : Option Nat
  cb : Option Nat
deriving DecidableEq

/-- `MySharedPtr(T* ptr) : ptr(ptr), cb(new ControlBlock<T, Deleter>())`
(src/memory.h:239).  A fresh control block (strong 1, weak 0) is allocated
even when the raw pointer is null. -/
def MySharedPtr.ofRaw (w : World) (p : Option Nat) : World × MySharedPtr :=
  let wi := w.alloc ControlBlock.init
  (wi.1, ⟨p, some wi.2⟩)

/-- `MySharedPtr(const MySharedPtr& other) : ptr(other.ptr), cb(other.cb)
{ cb->incrementStrongRef(); }` — unconditional dereference of `cb`. -/
def MySharedPtr.copyCtor (w : World) (s : MySharedPtr) : Option (World × MySharedPtr) :=
  match s.cb with
  | none => none
  | some i =>
    match w.get i with
    | none => none
    | some c =>
      if c.alive then some (w.set i c.incrementStrongRef, ⟨s.ptr, some i⟩) else none

/-- `use_count(): cb ? cb->getStrongRef() : 0`. -/
def MySharedPtr.use_count (w : World) (s : MySharedPtr) : Option Nat :=
  match s.cb with
  | none => some 0
  | some i =>
    match w.get i with
    | none => none
    | some c => if c.alive then some c.strong_ref else none

/-- `explicit operator bool(): get() != nullptr ? true : false`. -/
def MySharedPtr.toBool (s : MySharedPtr) : Bool := s.ptr.isSome

/-- `owner_before(other): this->cb->getStrongRef() < other.cb->getStrongRef()
? true : false` — it compares the two blocks' strong counts. -/
def MySharedPtr.owner_before (w : World) (s o : MySharedPtr) : Option Bool :=
  match s.cb, o.cb with
  | some i, some j =>
    match w.get i, w.get j with
    | some c, some d =>
      if c.alive ∧ d.alive then some (decide (c.strong_ref < d.strong_ref)) else none
    | _, _ => none
  | _, _ => none

/-- `reset(T* newPtr = nullptr)` (src/memory.h:302-308):
```
if (cb) {
    if (use_count() - 1 == 0 || cb == nullptr)
        cb->getDeleter()(ptr);
    cb->decrementStrongRef();
}
```
`use_count() - 1` is `size_t` arithmetic, so the guard is
`decWrap strong_ref = 0`; the `cb == nullptr` disjunct is dead code inside
`if (cb)`.  `newPtr` is never adopted and neither `ptr` nor `cb` is cleared:
the returned instance is the unchanged `s`. -/
def MySharedPtr.reset (w : World) (s : MySharedPtr) (newPtr : Option Nat) :
    Option (World × MySharedPtr) :=
  match s.cb with
  | none => some (w, s)
  | some i =>
    match w.get i with
    | none => none
    | some c =>
      if c.alive then
        let w1 :=
          if decWrap c.strong_ref = 0 then
            { w with deleterFired := w.deleterFired ++ [s.ptr] }
          else w
        some (w1.set i c.decrementStrongRef, s)
      else none

/-- `~MySharedPtr() { reset(); }`. -/
def MySharedPtr.destructor (w : World) (s : MySharedPtr) : Option (World × MySharedPtr) :=
  MySharedPtr.reset w s none

/-- `MyWeakPtr<T, Deleter>` (src/memory.h:315-372): raw pointer plus
`ControlBlock*`. -/
structure MyWeakPtr where
  ptr : Option Nat
  cb : Option Nat
deriving DecidableEq

/-- `MyWeakPtr(const MySharedPtr<T>& shared_ptr) : ptr(shared_ptr.get()),
cb(shared_ptr.getCB()) { cb->incrementWeakRef(); }`. -/
def MyWeakPtr.ofShared (w : World) (s : MySharedPtr) : Option (World × MyWeakPtr) :=
  match s.cb with
  | none => none
  | some i =>
    match w.get i with
    | none => none
    | some c =>
      if c.alive then some (w.set i c.incrementWeakRef, ⟨s.ptr, some i⟩) else none

/-- `MyWeakPtr(const MyWeakPtr& other) : ptr(other.ptr), cb(other.cb)
{ cb->incrementWeakRef(); }` — increments the weak count of the (shared)
block the copy now also references. -/
def MyWeakPtr.copyCtor (w : World) (src : MyWeakPtr) : Option (World × MyWeakPtr) :=
  match src.cb with
  | none => none
  | some i =>
    match w.get i with
    | none => none
    | some c =>
      if c.alive then some (w.set i c.incrementWeakRef, ⟨src.ptr, some i⟩) else none

/-- `operator=(const MyWeakPtr& other)` (src/memory.h:329-336):
```
if (this != &other) {
    cb->incrementWeakRef();
    ptr = other.ptr;
    cb = other.cb;
}
```
`same` models `this == &other`.  Note the increment happens on the
destination's *old* `cb`, before it is overwritten with `other.cb`. -/
def MyWeakPtr.copyAssign (w : World) (dst src : MyWeakPtr) (same : Bool) :
    Option (World × MyWeakPtr) :=
  if same then some (w, dst)
  else
    match dst.cb with
    | none => none
    | some i =>
      match w.get i with
      | none => none
      | some c =>
        if c.alive then some (w.set i c.incrementWeakRef, ⟨src.ptr, src.cb⟩) else none

/-- `expired(): cb->getStrongRef() == 0` — unconditional dereference of `cb`. -/
def MyWeakPtr.expired (w : World) (wp : MyWeakPtr) : Option Bool :=
  match wp.cb with
  | none => none
  | some i =>
    match w.get i with
    | none => none
    | some c => if c.alive then some (decide (c.strong_ref = 0)) else none

/-- `operator bool(): !expired()`. -/
def MyWeakPtr.toBool (w : World) (wp : MyWeakPtr) : Option Bool :=
  (MyWeakPtr.expired w wp).map (fun b => !b)

/-- `use_count(): cb ? cb->getStrongRef() : 0`. -/
def MyWeakPtr.use_count (w : World) (wp : MyWeakPtr) : Option Nat :=
  match wp.cb with
  | none => some 0
  | some i =>
    match w.get i with
    | none => none
    | some c => if c.alive then some c.strong_ref else none

/-- `reset(): ptr = nullptr; cb->decrementWeakRef(); cb = nullptr;` —
unconditional dereference of `cb`. -/
def MyWeakPtr.reset (w : World) (wp : MyWeakPtr) : Option (World × MyWeakPtr) :=
  match wp.cb with
  | none => none
  | some i =>
    match w.get i with
    | none => none
    | some c =>
      if c.alive then some (w.set i c.decrementWeakRef, ⟨none, none⟩) else none

/-- `~MyWeakPtr() { reset(); }`. -/
def MyWeakPtr.destructor (w : World) (wp : MyWeakPtr) : Option (World × MyWeakPtr) :=
  MyWeakPtr.reset w wp

/-- `lock(): expired() ? MySharedPtr<T>() : MySharedPtr<T>(*this)`
(src/memory.h:361-363).  The expired branch returns the empty
`MySharedPtr()`.  The non-expired branch calls a `MySharedPtr` constructor
taking a `MyWeakPtr`, but `MySharedPtr` declares no such constructor and no
conversion reaches one, so that branch is ill-formed whenever instantiated;
it is modelled as `none` (no well-defined result exists). -/
def MyWeakPtr.lock (w : World) (wp : MyWeakPtr) : Option (World × MySharedPtr) :=
  match MyWeakPtr.expired w wp with
  | none => none
  | some true => some (w, ⟨none, none⟩)
  | some false => none

/-- `MyUniquePtr<T, Deleter>` (scalar specialization, src/memory.h:90-157):
raw pointer plus a stored deleter value. -/
structure MyUniquePtr where
  ptr : Option Nat
  deleter : Nat
deriving DecidableEq

/-- The array specialization `MyUniquePtr<T[], Deleter>`
(src/memory.h:27-88), a distinct class with the same layout. -/
structure MyUniquePtrArray where
  ptr : Option Nat
  deleter : Nat
deriving DecidableEq

/-- `MyUniquePtr(MyUniquePtr&& other) : ptr(other.ptr) { other.ptr = nullptr; }`
(scalar, src/memory.h:105-107).  The member init list omits `deleter`, so the
destination's deleter is default-constructed (modelled as `0`); the source
keeps its deleter value.  Returns (destination, moved-from source). -/
def MyUniquePtr.moveCtor (other : MyUniquePtr) : MyUniquePtr × MyUniquePtr :=
  (⟨other.ptr, 0⟩, ⟨none, other.deleter⟩)

/-- `MyUniquePtr(MyUniquePtr&& other) : ptr(other.ptr) { other.ptr = nullptr; }`
(array specialization, src/memory.h:42-44), identical form. -/
def MyUniquePtrArray.moveCtor (other : MyUniquePtrArray) : MyUniquePtrArray × MyUniquePtrArray :=
  (⟨other.ptr, 0⟩, ⟨none, other.deleter⟩)

/-- `reset(T* newPtr = nullptr)` (scalar, src/memory.h:140-145):
`if (ptr != newPtr) { deleter(ptr); ptr = newPtr; }`.  The deleter-call log
is threaded alongside. -/
def MyUniquePtr.reset (log : List (Option Nat)) (u : MyUniquePtr) (newPtr : Option Nat) :
    List (Option Nat) × MyUniquePtr :=
  if u.ptr ≠ newPtr then (log ++ [u.ptr], ⟨newPtr, u.deleter⟩) else (log, u)

/-- `release(): T* releasedPtr = ptr; ptr = nullptr; return releasedPtr;`
(src/memory.h:135-139) — no deleter invocation. -/
def MyUniquePtr.release (u : MyUniquePtr) : MyUniquePtr × Option Nat :=
  (⟨none, u.deleter⟩, u.ptr)

/-- `~MyUniquePtr() { reset(); }` (src/memory.h:116-118). -/
def MyUniquePtr.destructor (log : List (Option Nat)) (u : MyUniquePtr) :
    List (Option Nat) × MyUniquePtr :=
  MyUniquePtr.reset log u none

/-- The operations a client can perform on one `MyUniquePtr` instance
after construction. -/
inductive UPOp where
  | resetTo (newPtr : Option Nat)
  | release
  | destroy
deriving DecidableEq

/-- Run a sequence of operations on a `MyUniquePtr`, threading the
deleter-call log. -/
def runUP : List UPOp → List (Option Nat) → MyUniquePtr → List (Option Nat) × MyUniquePtr
  | [], log, u => (log, u)
  | UPOp.resetTo p :: ops, log, u =>
    let lu := MyUniquePtr.reset log u p
    runUP ops lu.1 lu.2
  | UPOp.release :: ops, log, u => runUP ops log (MyUniquePtr.release u).1
  | UPOp.destroy :: ops, log, u =>
    let lu := MyUniquePtr.destructor log u
    runUP ops lu.1 lu.2

/-- How many times the deletion policy has been invoked on resource `r`. -/
def countFires (r : Nat) : List (Option Nat) → Nat
  | [] => 0
  | a :: l => (if a = some r then 1 else 0) + countFires r l

/-- Make `n` copies of shared pointer `s` (each copy-construction bumps the
strong count; the copies themselves are all equal to `⟨s.ptr, s.cb⟩`). -/
def copyN : Nat → World → MySharedPtr → Option (World × MySharedPtr)
  | 0, w, s => some (w, s)
  | n + 1, w, s => (MySharedPtr.copyCtor w s).bind (fun w1 => copyN n w1.1 s)

/-- Destroy `n` instances that all equal `s` (each destruction runs
`~MySharedPtr`, i.e. `reset()`), threading the world. -/
def destroyN : Nat → World → MySharedPtr → Option World
  | 0, w, _ => some w
  | n + 1, w, s => (MySharedPtr.destructor w s).bind (fun w1 => destroyN n w1.1 s)

/-- The claim-C2 scenario: wrap resource `1` in a shared pointer, make `n`
copies, then destroy `i` of the `n + 1` equal instances. -/
def sharedCopyDestroyTrace (n i : Nat) : Option World :=
  let ws := MySharedPtr.ofRaw World.empty (some 1)
  (copyN n ws.1 ws.2).bind (fun w1 => destroyN i w1.1 ws.2)

/-! ### Arithmetic helpers for wrapped `size_t` counters -/

theorem SIZE_WRAP_pos : 0 < SIZE_WRAP := by norm_num [SIZE_WRAP]

theorem incWrap_eq (n : Nat) (h : n + 1 < SIZE_WRAP) : incWrap n = n + 1 := by
  unfold incWrap
  exact Nat.mod_eq_of_lt h

theorem decWrap_eq_sub_one (s : Nat) (h1 : 1 ≤ s) (h2 : s < SIZE_WRAP) :
    decWrap s = s - 1 := by
  have h0 : 0 < SIZE_WRAP := SIZE_WRAP_pos
  unfold decWrap
  have h3 : s + (SIZE_WRAP - 1) = (s - 1) + SIZE_WRAP := by omega
  rw [h3, Nat.add_mod_right, Nat.mod_eq_of_lt (by omega)]

theorem countFires_append (r : Nat) (l1 l2 : List (Option Nat)) :
    countFires r (l1 ++ l2) = countFires r l1 + countFires r l2 := by
  induction l1 with
  | nil => simp [countFires]
  | cons a l ih => simp [countFires, ih]; omega

/-! ### Closed-form runs of the shared-pointer scenario -/

theorem copyCtor_live_step (st wk : Nat) (f : List (Option Nat)) (r : Option Nat) :
    MySharedPtr.copyCtor ⟨[⟨true, st, wk⟩], f⟩ ⟨r, some 0⟩ =
      some (⟨[⟨true, incWrap st, wk⟩], f⟩, ⟨r, some 0⟩) := rfl

theorem destructor_live_step (st wk : Nat) (f : List (Option Nat)) (r : Option Nat) :
    MySharedPtr.destructor ⟨[⟨true, st, wk⟩], f⟩ ⟨r, some 0⟩ =
      some (⟨[ControlBlock.decrementStrongRef ⟨true, st, wk⟩],
             if decWrap st = 0 then f ++ [r] else f⟩, ⟨r, some 0⟩) := by
  by_cases h : decWrap st = 0 <;>
    simp [MySharedPtr.destructor, MySharedPtr.reset, World.get, World.set, h,
      List.get?]

theorem copyN_closed (n : Nat) :
    ∀ (st wk : Nat) (f : List (Option Nat)) (r : Option Nat),
      st + n < SIZE_WRAP →
      copyN n ⟨[⟨true, st, wk⟩], f⟩ ⟨r, some 0⟩ =
        some (⟨[⟨true, st + n, wk⟩], f⟩, ⟨r, some 0⟩) := by
  induction n with
  | zero => intro st wk f r _; simp [copyN]
  | succ n ih =>
    intro st wk f r h
    have hs : incWrap st = st + 1 := incWrap_eq st (by omega)
    have h3 : st + 1 + n = st + (n + 1) := by omega
    rw [copyN, copyCtor_live_step, Option.some_bind, hs,
      ih (st + 1) wk f r (by omega), h3]

theorem destroyN_closed_lt (i : Nat) :
    ∀ (st : Nat) (f : List (Option Nat)) (r : Option Nat),
      i < st → st < SIZE_WRAP →
      destroyN i ⟨[⟨true, st, 0⟩], f⟩ ⟨r, some 0⟩ = some ⟨[⟨true, st - i, 0⟩], f⟩ := by
  induction i with
  | zero => intro st f r _ _; simp [destroyN]
  | succ i ih =>
    intro st f r hi hs
    have hdec : decWrap st = st - 1 := decWrap_eq_sub_one st (by omega) hs
    have hnz : ¬(decWrap st = 0) := by rw [hdec]; omega
    have hcb : ControlBlock.decrementStrongRef ⟨true, st, 0⟩ = ⟨true, st - 1, 0⟩ := by
      simp only [ControlBlock.decrementStrongRef]
      rw [hdec, if_neg (by omega)]
    have h4 : st - 1 - i = st - (i + 1) := by omega
    rw [destroyN, destructor_live_step, Option.some_bind, hcb, if_neg hnz,
      ih (st - 1) f r (by omega) (by omega), h4]

theorem destroyN_closed_eq (st : Nat) :
    ∀ (f : List (Option Nat)) (r : Option Nat),
      1 ≤ st → st < SIZE_WRAP →
      destroyN st ⟨[⟨true, st, 0⟩], f⟩ ⟨r, some 0⟩ =
        some ⟨[⟨false, 0, 0⟩], f ++ [r]⟩ := by
  induction st with
  | zero => intro f r h1 _; omega
  | succ st ih =>
    intro f r _ hs
    by_cases hz : st = 0
    · subst hz
      have hd : decWrap 1 = 0 := by
        rw [decWrap_eq_sub_one 1 (by omega) (by norm_num [SIZE_WRAP])]
      have hcb : ControlBlock.decrementStrongRef ⟨true, 1, 0⟩ = ⟨false, 0, 0⟩ := by
        simp only [ControlBlock.decrementStrongRef]
        rw [hd, if_pos (by simp)]
      rw [destroyN, destructor_live_step, Option.some_bind, hcb, if_pos hd,
        destroyN]
    · have hd : decWrap (st + 1) = st := by
        rw [decWrap_eq_sub_one (st + 1) (by omega) hs]; omega
      have hnz : ¬(decWrap (st + 1) = 0) := by rw [hd]; omega
      have hcb : ControlBlock.decrementStrongRef ⟨true, st + 1, 0⟩ = ⟨true, st, 0⟩ := by
        simp only [ControlBlock.decrementStrongRef]
        rw [hd, if_neg (by omega)]
      rw [destroyN, destructor_live_step, Option.some_bind, hcb, if_neg hnz]
      exact ih f r (by omega) (by omega)

/-! ### Claim theorems -/

/-- C1: the claim says `reset()` on a non-empty `MySharedPtr` decrements the
strong count once and leaves the instance empty, so a later destruction of
the same instance decrements no further.  The code violates this: `reset`
(src/memory.h:302-308) clears neither `ptr` nor `cb`.  In the concrete trace
below — wrap resource `1`, register one weak observer (so the block is not
freed), `reset()` the owner, then run its destructor — after `reset` the
instance still holds `cb = some 0` (first component), the block's strong
count reached `0` with the policy fired once (second and third components),
and the destructor then decremented the strong count *again*, wrapping it to
`2^64 - 1` (fourth component).  The final conjunct shows the part of the
claim that does hold: `reset()` on an already-empty instance is a no-op. -/
theorem C1_reset_leaves_instance_nonempty :
    (do
      let ws := MySharedPtr.ofRaw World.empty (some 1)
      let ww ← MyWeakPtr.ofShared ws.1 ws.2
      let r1 ← MySharedPtr.reset ww.1 ws.2 none
      let r2 ← MySharedPtr.destructor r1.1 r1.2
      pure ((r1.2).cb, (r1.1).cbs, (r1.1).deleterFired, (r2.1).cbs))
      = some (some 0, [⟨true, 0, 1⟩], [some 1], [⟨true, SIZE_WRAP - 1, 1⟩])
    ∧ MySharedPtr.reset World.empty ⟨none, none⟩ none
      = some (World.empty, ⟨none, none⟩) := by
  constructor
  · rfl
  · rfl

/-- C2: wrap a resource in a `MySharedPtr`, make `n` copies
(strong count `n + 1`), then destroy `i ≤ n + 1` of the `n + 1` instances
(each destructor runs `reset()` for the first time on its own instance).
After `i` destructions the strong count — the value `useCount()` reports on
any remaining instance — is exactly `n + 1 - i`, so it decreases by exactly
one per destruction; the deletion-policy log stays empty until the last
destruction and is exactly one invocation (on the resource) afterwards, i.e.
the policy fires exactly once, at the transition of the strong count to 0. -/
theorem C2_copies_destroy_counts_and_single_fire (n i : Nat)
    (hn : n + 1 < SIZE_WRAP) (hi : i ≤ n + 1) :
    sharedCopyDestroyTrace n i =
      some ⟨[if i = n + 1 then ⟨false, 0, 0⟩ else ⟨true, n + 1 - i, 0⟩],
            if i = n + 1 then [some 1] else []⟩ := by
  have h0 : sharedCopyDestroyTrace n i
      = (copyN n ⟨[⟨true, 1, 0⟩], []⟩ ⟨some 1, some 0⟩).bind
          (fun w1 => destroyN i w1.1 ⟨some 1, some 0⟩) := rfl
  have hcopy := copyN_closed n 1 0 [] (some 1) (by omega)
  rw [h0, hcopy, Option.some_bind]
  by_cases hlast : i = n + 1
  · subst hlast
    rw [if_pos rfl, if_pos rfl]
    have := destroyN_closed_eq (n + 1) [] (some 1) (by omega) hn
    rw [show 1 + n = n + 1 by omega, this]
    rfl
  · rw [if_neg hlast, if_neg hlast, show 1 + n = n + 1 by omega]
    exact destroyN_closed_lt i (n + 1) [] (some 1) (by omega) hn

/-- Witness for C2 at `n = 2`, `i = 3`: three owners, three destructions. -/
theorem C2_copies_destroy_counts_and_single_fire_witness :
    (2 + 1 < SIZE_WRAP ∧ 3 ≤ 2 + 1)
    ∧ sharedCopyDestroyTrace 2 3 =
        some ⟨[if 3 = 2 + 1 then ⟨false, 0, 0⟩ else ⟨true, 2 + 1 - 3, 0⟩],
              if 3 = 2 + 1 then [some 1] else []⟩ :=
  ⟨⟨by norm_num [SIZE_WRAP], by norm_num⟩,
   C2_copies_destroy_counts_and_single_fire 2 3 (by norm_num [SIZE_WRAP])
     (by norm_num)⟩

/-- C3: a `ControlBlock` is created with `strong_ref = 1`, `weak_ref = 0`;
starting from a not-yet-freed block, each decrement operation frees the
block (`delete this`) exactly when both counters are 0 after it, the
increment operations never free it, and in particular no operation leaves a
freed block whose weak count is still positive. -/
theorem C3_controlblock_created_1_0_freed_at_joint_zero (c : ControlBlock)
    (h : c.alive = true) :
    (ControlBlock.init.alive = true ∧ ControlBlock.init.strong_ref = 1
      ∧ ControlBlock.init.weak_ref = 0)
    ∧ (c.decrementStrongRef.alive = false
        ↔ (c.decrementStrongRef.strong_ref = 0 ∧ c.decrementStrongRef.weak_ref = 0))
    ∧ (c.decrementWeakRef.alive = false
        ↔ (c.decrementWeakRef.strong_ref = 0 ∧ c.decrementWeakRef.weak_ref = 0))
    ∧ c.incrementStrongRef.alive = true
    ∧ c.incrementWeakRef.alive = true
    ∧ (0 < c.decrementStrongRef.weak_ref → c.decrementStrongRef.alive = true)
    ∧ (0 < c.decrementWeakRef.weak_ref → c.decrementWeakRef.alive = true) := by
  refine ⟨⟨rfl, rfl, rfl⟩, ?_, ?_, ?_, ?_, ?_, ?_⟩
  · by_cases hc : decWrap c.strong_ref = 0 ∧ c.weak_ref = 0 <;>
      simp [ControlBlock.decrementStrongRef, hc, h]
  · by_cases hc : c.strong_ref = 0 ∧ decWrap c.weak_ref = 0 <;>
      simp [ControlBlock.decrementWeakRef, hc, h]
  · simp [ControlBlock.incrementStrongRef, h]
  · simp [ControlBlock.incrementWeakRef, h]
  · by_cases hc : decWrap c.strong_ref = 0 ∧ c.weak_ref = 0 <;>
      simp [ControlBlock.decrementStrongRef, hc, h]
  · by_cases hc : c.strong_ref = 0 ∧ decWrap c.weak_ref = 0 <;>
      simp [ControlBlock.decrementWeakRef, hc, h]

/-- Witness for C3 at the freshly-constructed block `ControlBlock.init`. -/
theorem C3_controlblock_created_1_0_freed_at_joint_zero_witness :
    ControlBlock.init.alive = true
    ∧ ((ControlBlock.init.alive = true ∧ ControlBlock.init.strong_ref = 1
          ∧ ControlBlock.init.weak_ref = 0)
       ∧ (ControlBlock.init.decrementStrongRef.alive = false
            ↔ (ControlBlock.init.decrementStrongRef.strong_ref = 0
                ∧ ControlBlock.init.decrementStrongRef.weak_ref = 0))
       ∧ (ControlBlock.init.decrementWeakRef.alive = false
            ↔ (ControlBlock.init.decrementWeakRef.strong_ref = 0
                ∧ ControlBlock.init.decrementWeakRef.weak_ref = 0))
       ∧ ControlBlock.init.incrementStrongRef.alive = true
       ∧ ControlBlock.init.incrementWeakRef.alive = true
       ∧ (0 < ControlBlock.init.decrementStrongRef.weak_ref
            → ControlBlock.init.decrementStrongRef.alive = true)
       ∧ (0 < ControlBlock.init.decrementWeakRef.weak_ref
            → ControlBlock.init.decrementWeakRef.alive = true)) :=
  ⟨rfl, C3_controlblock_created_1_0_freed_at_joint_zero ControlBlock.init rfl⟩

/-- C4: the claim says `lock()` returns a strong-count-incrementing shared
owner when `strongCount > 0` and an empty shared pointer when expired.  Only
the second half is realizable: the non-expired branch of `lock`
(src/memory.h:362) calls `MySharedPtr<T>(*this)`, a constructor from
`MyWeakPtr` that `MySharedPtr` does not declare, so no well-defined result
exists (modelled as `none`).  On an expired block (strong count 0, one weak
observer) `lock` does return the empty `MySharedPtr()` whose `use_count()`
is 0 and leaves the world unchanged. -/
theorem C4_lock_alive_branch_has_no_constructor :
    MyWeakPtr.expired ⟨[⟨true, 1, 1⟩], []⟩ ⟨some 1, some 0⟩ = some false
    ∧ MyWeakPtr.lock ⟨[⟨true, 1, 1⟩], []⟩ ⟨some 1, some 0⟩ = none
    ∧ MyWeakPtr.expired ⟨[⟨true, 0, 1⟩], []⟩ ⟨some 1, some 0⟩ = some true
    ∧ MyWeakPtr.lock ⟨[⟨true, 0, 1⟩], []⟩ ⟨some 1, some 0⟩
        = some (⟨[⟨true, 0, 1⟩], []⟩, ⟨none, none⟩)
    ∧ MySharedPtr.use_count ⟨[⟨true, 0, 1⟩], []⟩ ⟨none, none⟩ = some 0 :=
  ⟨rfl, rfl, rfl, rfl, rfl⟩

/-- C5: the claim says `ownerBefore` orders by owner identity, independent
of the reference counts.  The code (src/memory.h:296-298) compares the
*strong counts* of the two control blocks instead.  With two distinct owners
`p` (block 0) and `q` (block 1), both counts 1: neither compares before the
other (trichotomy over distinct owners fails); after copy-constructing from
`q` (which only changes block 1's strong count to 2), `p.owner_before q`
flips from `false` to `true`, so the result depends on the current strong
counts.  The final conjunct shows the one part that holds: two sharers of
one block never compare before each other. -/
theorem C5_owner_before_compares_strong_counts :
    MySharedPtr.owner_before ⟨[⟨true, 1, 0⟩, ⟨true, 1, 0⟩], []⟩
        ⟨some 1, some 0⟩ ⟨some 2, some 1⟩ = some false
    ∧ MySharedPtr.owner_before ⟨[⟨true, 1, 0⟩, ⟨true, 1, 0⟩], []⟩
        ⟨some 2, some 1⟩ ⟨some 1, some 0⟩ = some false
    ∧ MySharedPtr.copyCtor ⟨[⟨true, 1, 0⟩, ⟨true, 1, 0⟩], []⟩ ⟨some 2, some 1⟩
        = some (⟨[⟨true, 1, 0⟩, ⟨true, 2, 0⟩], []⟩, ⟨some 2, some 1⟩)
    ∧ MySharedPtr.owner_before ⟨[⟨true, 1, 0⟩, ⟨true, 2, 0⟩], []⟩
        ⟨some 1, some 0⟩ ⟨some 2, some 1⟩ = some true
    ∧ MySharedPtr.owner_before ⟨[⟨true, 2, 0⟩], []⟩
        ⟨some 1, some 0⟩ ⟨some 1, some 0⟩ = some false :=
  ⟨rfl, rfl, rfl, rfl, rfl⟩

/-- C6: the claim says both copy-construction and copy-assignment of a
`MyWeakPtr` increment the weak count of the *source's* control block.  Copy
construction does (first conjunct: block 1's weak count 1 becomes 2, copy
refers to block 1).  Copy assignment does not: with `dst` observing block 0
and `src` observing block 1 (each block at weak count 1), the assignment
increments block 0 — `dst`'s old block — leaving block 1's weak count at 1
even though `dst` now refers to block 1 (second conjunct). -/
theorem C6_copy_assign_increments_destinations_old_block :
    MyWeakPtr.copyCtor ⟨[⟨true, 1, 1⟩, ⟨true, 1, 1⟩], []⟩ ⟨some 2, some 1⟩
        = some (⟨[⟨true, 1, 1⟩, ⟨true, 1, 2⟩], []⟩, ⟨some 2, some 1⟩)
    ∧ MyWeakPtr.copyAssign ⟨[⟨true, 1, 1⟩, ⟨true, 1, 1⟩], []⟩
        ⟨some 1, some 0⟩ ⟨some 2, some 1⟩ false
        = some (⟨[⟨true, 1, 2⟩, ⟨true, 1, 1⟩], []⟩, ⟨some 2, some 1⟩) :=
  ⟨rfl, rfl⟩

theorem runUP_fires_le_one (r : Nat) (ops : List UPOp) :
    UPOp.resetTo (some r) ∉ ops →
    ∀ (log : List (Option Nat)) (u : MyUniquePtr),
      (u.ptr = some r → countFires r log = 0) →
      countFires r log ≤ 1 →
      countFires r (runUP ops log u).1 ≤ 1 := by
  induction ops with
  | nil => intro _ log u _ h2; simpa [runUP] using h2
  | cons op ops ih =>
    intro h log u h1 h2
    have h' : UPOp.resetTo (some r) ∉ ops := fun hm => h (List.mem_cons_of_mem _ hm)
    cases op with
    | resetTo p =>
      have hp : p ≠ some r := fun hEq => h (by rw [hEq]; exact List.mem_cons_self _ _)
      by_cases hup : u.ptr = p
      · rw [runUP, MyUniquePtr.reset, if_neg (by simp [hup])]
        exact ih h' log u h1 h2
      · rw [runUP, MyUniquePtr.reset, if_pos hup]
        apply ih h' (log ++ [u.ptr]) ⟨p, u.deleter⟩
        · intro hc; exact absurd hc hp
        · rw [countFires_append]
          by_cases hur : u.ptr = some r
          · rw [h1 hur]; simp [countFires, hur]
          · simp [countFires, hur]; exact h2
    | release =>
      rw [runUP, MyUniquePtr.release]
      exact ih h' log ⟨none, u.deleter⟩ (by intro hc; simp at hc) h2
    | destroy =>
      rw [runUP, MyUniquePtr.destructor, MyUniquePtr.reset]
      by_cases hup : u.ptr = (none : Option Nat)
      · rw [if_neg (by simp [hup])]
        exact ih h' log u h1 h2
      · rw [if_pos hup]
        apply ih h' (log ++ [u.ptr]) ⟨none, u.deleter⟩
        · intro hc; simp at hc
        · rw [countFires_append]
          by_cases hur : u.ptr = some r
          · rw [h1 hur]; simp [countFires, hur]
          · simp [countFires, hur]; exact h2

theorem runUP_fires_zero (r : Nat) (ops : List UPOp) :
    UPOp.resetTo (some r) ∉ ops →
    ∀ (log : List (Option Nat)) (u : MyUniquePtr),
      u.ptr ≠ some r →
      countFires r log = 0 →
      countFires r (runUP ops log u).1 = 0 := by
  induction ops with
  | nil => intro _ log u _ h2; simpa [runUP] using h2
  | cons op ops ih =>
    intro h log u h1 h2
    have h' : UPOp.resetTo (some r) ∉ ops := fun hm => h (List.mem_cons_of_mem _ hm)
    cases op with
    | resetTo p =>
      have hp : p ≠ some r := fun hEq => h (by rw [hEq]; exact List.mem_cons_self _ _)
      by_cases hup : u.ptr = p
      · rw [runUP, MyUniquePtr.reset, if_neg (by simp [hup])]
        exact ih h' log u h1 h2
      · rw [runUP, MyUniquePtr.reset, if_pos hup]
        apply ih h' (log ++ [u.ptr]) ⟨p, u.deleter⟩ hp
        rw [countFires_append, h2]
        simp [countFires, h1]
    | release =>
      rw [runUP, MyUniquePtr.release]
      exact ih h' log ⟨none, u.deleter⟩ (by simp) h2
    | destroy =>
      rw [runUP, MyUniquePtr.destructor, MyUniquePtr.reset]
      by_cases hup : u.ptr = (none : Option Nat)
      · rw [if_neg (by simp [hup])]
        exact ih h' log u h1 h2
      · rw [if_pos hup]
        apply ih h' (log ++ [u.ptr]) ⟨none, u.deleter⟩ (by simp)
        rw [countFires_append, h2]
        simp [countFires, h1]

/-- C7: for a resource `r` wrapped by a `MyUniquePtr` (with any stored
deleter value `d`), over any sequence of `reset` / `release` / destructor
operations that never re-adopts `r`: the deletion policy fires on `r` at
most once; if `release()` comes first it never fires on `r` at all; and a
sole destruction, or a sole `reset()`, fires it exactly once.  (The scalar
and array specializations have textually identical `release`, `reset` and
destructor bodies, so this settles both.) -/
theorem C7_unique_ptr_deleter_fires_exactly_once (r d : Nat) (ops : List UPOp)
    (h : UPOp.resetTo (some r) ∉ ops) :
    countFires r (runUP ops [] ⟨some r, d⟩).1 ≤ 1
    ∧ countFires r (runUP (UPOp.release :: ops) [] ⟨some r, d⟩).1 = 0
    ∧ countFires r (runUP [UPOp.destroy] [] ⟨some r, d⟩).1 = 1
    ∧ countFires r (runUP [UPOp.resetTo none] [] ⟨some r, d⟩).1 = 1 := by
  refine ⟨?_, ?_, ?_, ?_⟩
  · exact runUP_fires_le_one r ops h [] ⟨some r, d⟩ (fun _ => rfl) (by simp [countFires])
  · rw [runUP, MyUniquePtr.release]
    exact runUP_fires_zero r ops h [] ⟨none, d⟩ (by simp) rfl
  · simp [runUP, MyUniquePtr.destructor, MyUniquePtr.reset, countFires]
  · simp [runUP, MyUniquePtr.reset, countFires]

/-- Witness for C7 at `r = 1`, `d = 0`, `ops = [release, destroy]`. -/
theorem C7_unique_ptr_deleter_fires_exactly_once_witness :
    UPOp.resetTo (some 1) ∉ [UPOp.release, UPOp.destroy]
    ∧ (countFires 1 (runUP [UPOp.release, UPOp.destroy] [] ⟨some 1, 0⟩).1 ≤ 1
       ∧ countFires 1 (runUP (UPOp.release :: [UPOp.release, UPOp.destroy]) [] ⟨some 1, 0⟩).1 = 0
       ∧ countFires 1 (runUP [UPOp.destroy] [] ⟨some 1, 0⟩).1 = 1
       ∧ countFires 1 (runUP [UPOp.resetTo none] [] ⟨some 1, 0⟩).1 = 1) :=
  ⟨by decide,
   C7_unique_ptr_deleter_fires_exactly_once 1 0 [UPOp.release, UPOp.destroy] (by decide)⟩

/-- C8: `use_count()` returns 0 when the instance holds no control block and
the block's strong count otherwise; and the shared pointer constructed from
a null raw reference still allocates a control block (so its `use_count()`
is 1, the block's strong count) while its boolean conversion, which tests
only the raw pointer, is `false`. -/
theorem C8_use_count_zero_if_empty_else_strong (w : World) (s : MySharedPtr) :
    (s.cb = none → MySharedPtr.use_count w s = some 0)
    ∧ (∀ i c, s.cb = some i → World.get w i = some c → c.alive = true →
        MySharedPtr.use_count w s = some c.strong_ref)
    ∧ MySharedPtr.toBool (MySharedPtr.ofRaw World.empty none).2 = false
    ∧ (MySharedPtr.ofRaw World.empty none).2.cb = some 0
    ∧ MySharedPtr.use_count (MySharedPtr.ofRaw World.empty none).1
        (MySharedPtr.ofRaw World.empty none).2 = some 1 := by
  refine ⟨?_, ?_, rfl, rfl, rfl⟩
  · intro hc; simp [MySharedPtr.use_count, hc]
  · intro i c h1 h2 h3; simp [MySharedPtr.use_count, h1, h2, h3]

/-- Witness for C8: a pointer holding block 0 with strong count 5. -/
theorem C8_use_count_zero_if_empty_else_strong_witness :
    ((⟨some 1, some 0⟩ : MySharedPtr).cb = some 0
      ∧ World.get ⟨[⟨true, 5, 0⟩], []⟩ 0 = some ⟨true, 5, 0⟩
      ∧ (⟨true, 5, 0⟩ : ControlBlock).alive = true)
    ∧ MySharedPtr.use_count ⟨[⟨true, 5, 0⟩], []⟩ ⟨some 1, some 0⟩ = some 5 :=
  ⟨⟨rfl, rfl, rfl⟩,
   (C8_use_count_zero_if_empty_else_strong ⟨[⟨true, 5, 0⟩], []⟩
       ⟨some 1, some 0⟩).2.1 0 ⟨true, 5, 0⟩ rfl rfl rfl⟩

/-- C9: on a default-constructed (empty) `MyWeakPtr`, whose `cb` is the null
pointer, `expired()`, the boolean conversion, `reset()`, the destructor
(which calls `reset()`), and also `lock()` (which calls `expired()`) all
dereference the null control-block pointer — no well-defined result exists
(`none`) — in any world; only `use_count()` guards the null case and
returns 0. -/
theorem C9_empty_weak_ptr_null_dereference (w : World) :
    MyWeakPtr.expired w ⟨none, none⟩ = none
    ∧ MyWeakPtr.toBool w ⟨none, none⟩ = none
    ∧ MyWeakPtr.reset w ⟨none, none⟩ = none
    ∧ MyWeakPtr.destructor w ⟨none, none⟩ = none
    ∧ MyWeakPtr.lock w ⟨none, none⟩ = none
    ∧ MyWeakPtr.use_count w ⟨none, none⟩ = some 0 :=
  ⟨rfl, rfl, rfl, rfl, rfl, rfl⟩

/-- C10: move-constructing a `MyUniquePtr` (scalar or array specialization)
transfers only the raw pointer: the destination's deleter is the
default-constructed value `0`, not the source's stored value `d`, which
stays behind in the moved-from source (whose pointer becomes null). -/
theorem C10_move_ctor_does_not_transfer_deleter (p : Option Nat) (d : Nat)
    (hd : d ≠ 0) :
    (MyUniquePtr.moveCtor ⟨p, d⟩).1.ptr = p
    ∧ (MyUniquePtr.moveCtor ⟨p, d⟩).1.deleter = 0
    ∧ (MyUniquePtr.moveCtor ⟨p, d⟩).2 = ⟨none, d⟩
    ∧ (MyUniquePtr.moveCtor ⟨p, d⟩).1.deleter ≠ d
    ∧ (MyUniquePtrArray.moveCtor ⟨p, d⟩).1.ptr = p
    ∧ (MyUniquePtrArray.moveCtor ⟨p, d⟩).1.deleter = 0
    ∧ (MyUniquePtrArray.moveCtor ⟨p, d⟩).2 = ⟨none, d⟩
    ∧ (MyUniquePtrArray.moveCtor ⟨p, d⟩).1.deleter ≠ d :=
  ⟨rfl, rfl, rfl, Ne.symm hd, rfl, rfl, rfl, Ne.symm hd⟩

/-- Witness for C10 at `p = some 3`, `d = 7`. -/
theorem C10_move_ctor_does_not_transfer_deleter_witness :
    (7 : Nat) ≠ 0
    ∧ ((MyUniquePtr.moveCtor ⟨some 3, 7⟩).1.ptr = some 3
       ∧ (MyUniquePtr.moveCtor ⟨some 3, 7⟩).1.deleter = 0
       ∧ (MyUniquePtr.moveCtor ⟨some 3, 7⟩).2 = ⟨none, 7⟩
       ∧ (MyUniquePtr.moveCtor ⟨some 3, 7⟩).1.deleter ≠ 7
       ∧ (MyUniquePtrArray.moveCtor ⟨some 3, 7⟩).1.ptr = some 3
       ∧ (MyUniquePtrArray.moveCtor ⟨some 3, 7⟩).1.deleter = 0
       ∧ (MyUniquePtrArray.moveCtor ⟨some 3, 7⟩).2 = ⟨none, 7⟩
       ∧ (MyUniquePtrArray.moveCtor ⟨some 3, 7⟩).1.deleter ≠ 7) :=
  ⟨by decide, C10_move_ctor_does_not_transfer_deleter (some 3) 7 (by decide)⟩
